import Mathlib

/-!
Shallow embedding of the OriginMonitor protocol bridge
(`AlpacaServer.cpp`, `OriginBackend` implementation) used to verify the
claims of the specification.  Qt container and JSON types are modelled by
plain Lean structures; member functions become state-passing functions.
Blocking waits on the Qt event loop (connection establishment, the
image-ready wait inside `singleShot`) are modelled by an explicit boolean
oracle saying whether the awaited signal arrived before the timeout.
-/

namespace OriginMonitor

/-- Simplified JSON value, sufficient for the Alpaca response envelopes. -/
inductive JVal where
  | null
  | bool (b : Bool)
  | int (n : Int)
  | str (s : String)
  | arr (xs : List JVal)
deriving Repr

/-- Model of `AlpacaServer::ClientTransaction`: per-request client identifiers parsed
from the query string (default 0 when absent). -/
structure ClientTransaction where
  clientID : Int := 0
  clientTransactionID : Int := 0
  transactionID : String := ""
deriving Repr

/-- The mutable server state relevant to response construction:
`m_transactionCounter` (a C++ `int`, initialised to 0). -/
structure ServerState where
  transactionCounter : Int
deriving Repr

/-- The standard Alpaca response envelope built by the bridge. -/
structure AlpacaResponse where
  errorNumber : Int
  errorMessage : String
  clientTransactionID : Int
  serverTransactionID : Int
  value : JVal
deriving Repr

/-- Model of `AlpacaServer::createErrorResponse`: builds the error envelope and
post-increments `m_transactionCounter`. -/
def createErrorResponse (s : ServerState) (errorNumber : Int)
    (errorMessage : String) : AlpacaResponse × ServerState :=
  ({ errorNumber := errorNumber
     errorMessage := errorMessage
     clientTransactionID := 0
     serverTransactionID := s.transactionCounter
     value := JVal.null },
   { s with transactionCounter := s.transactionCounter + 1 })

/-- Model of `AlpacaServer::createSuccessResponse`: builds the success envelope and
post-increments `m_transactionCounter`. -/
def createSuccessResponse (s : ServerState) (value : JVal)
    (t : ClientTransaction) : AlpacaResponse × ServerState :=
  ({ errorNumber := 0
     errorMessage := ""
     clientTransactionID := t.clientTransactionID
     serverTransactionID := s.transactionCounter
     value := value },
   { s with transactionCounter := s.transactionCounter + 1 })

/-- Every literal `(errorNumber, errorMessage)` pair passed to
`createErrorResponse` anywhere in `AlpacaServer.cpp` (duplicated call sites
listed once). -/
def alpacaErrorCallSites : List (Int × String) :=
  [ (1, "Method not allowed")
  , (1, "Failed to connect to telescope")
  , (1, "Failed to set tracking")
  , (1, "Failed to abort slew")
  , (1, "Failed to park telescope")
  , (1, "Failed to unpark telescope")
  , (1, "Failed to initialize telescope")
  , (1, "Failed to slew to coordinates")
  , (1, "Failed to sync to coordinates")
  , (1, "Failed to abort exposure")
  , (1, "No image is ready")
  , (1, "Failed to get image")
  , (1, "Failed to move axis")
  , (1, "Failed to slew to target")
  , (1, "Failed to sync to target")
  , (1002, "Invalid parameters")
  , (1002, "Missing \x27Connected\x27 parameter")
  , (1002, "Missing Tracking parameter")
  , (1002, "Missing coordinates")
  , (1002, "Missing Duration parameter")
  , (1002, "Missing TargetDeclination parameter")
  , (1002, "Missing TargetRightAscension parameter")
  , (1002, "Missing TrackingRate parameter")
  , (1002, "Missing Axis or Rate parameter")
  , (1025, "Invalid RightAscension value")
  , (1025, "Invalid Declination value")
  , (1025, "Invalid exposure duration")
  , (1025, "Invalid declination value")
  , (1025, "Invalid right ascension value")
  , (1025, "Invalid tracking rate value")
  , (1025, "Invalid axis value")
  , (1025, "Invalid Azimuth value")
  , (1025, "Invalid Altitude value")
  , (1031, "Not connected to telescope")
  , (1031, "Not connected to camera")
  , (1036, "Pulse guiding not supported") ]

/-- The one dynamically built error message
(`handleDeviceAction`, error number 1001). -/
def actionNotImplementedMessage (action : String) : String :=
  "Action not implemented: " ++ action

/-- Abstract outcome of handling one REST request: the bridge emits either
an error envelope, a success envelope, or (for `imagearray` under the
binary media type) a binary header that also consumes
`m_transactionCounter++`. -/
inductive RequestOutcome where
  | failure (errorNumber : Int) (errorMessage : String)
  | success (value : JVal) (t : ClientTransaction)
  | imageBytes (t : ClientTransaction)

/-- The `ServerTransactionID` emitted for one request, together with the
server state left behind, following the three emission sites in
`AlpacaServer.cpp`. -/
def respondTransactionID (s : ServerState) (o : RequestOutcome) :
    Int × ServerState :=
  match o with
  | RequestOutcome.failure n m =>
      let r := createErrorResponse s n m
      (r.1.serverTransactionID, r.2)
  | RequestOutcome.success v t =>
      let r := createSuccessResponse s v t
      (r.1.serverTransactionID, r.2)
  | RequestOutcome.imageBytes _ =>
      (s.transactionCounter,
       { s with transactionCounter := s.transactionCounter + 1 })

/-- The sequence of `ServerTransactionID` values produced for a sequence of
requests. -/
def serverTransactionIDs (s : ServerState) : List RequestOutcome → List Int
  | [] => []
  | o :: os =>
      let r := respondTransactionID s o
      r.1 :: serverTransactionIDs r.2 os

/-- The IEEE-754 double value of the `M_PI` constant, as an exact rational
(`0x400921FB54442D18`).  The unit conversions of the backend are exact field
operations on this constant; the model computes them exactly over `ℚ`. -/
def piDouble : ℚ := 884279719003555 / 281474976710656

/-- Model of `OriginBackend::radiansToHours`. -/
def radiansToHours (radians : ℚ) : ℚ := radians * 12 / piDouble

/-- Model of `OriginBackend::radiansToDegrees`. -/
def radiansToDegrees (radians : ℚ) : ℚ := radians * 180 / piDouble

/-- Model of `OriginBackend::hoursToRadians`. -/
def hoursToRadians (hours : ℚ) : ℚ := hours * piDouble / 12

/-- Model of `OriginBackend::degreesToRadians`. -/
def degreesToRadians (degrees : ℚ) : ℚ := degrees * piDouble / 180

/-- One RGB pixel (components 0..255), as read back by `image.pixel`. -/
structure Rgb where
  r : Nat
  g : Nat
  b : Nat
deriving Repr, DecidableEq

/-- A decoded non-null `QImage`, given by its scanlines: either 8-bit
grayscale or any other format accessed through `qGray`. -/
inductive QImageData where
  | grayscale8 (rows : List (List Nat))
  | rgb32 (rows : List (List Rgb))
deriving Repr, DecidableEq

/-- The Qt `qGray` luminance formula `(r * 11 + g * 16 + b * 5) / 32`. -/
def qGray (r g b : Nat) : Nat := (r * 11 + g * 16 + b * 5) / 32

/-- All sample components of the image are in the 8-bit range. -/
def wfImage : QImageData → Bool
  | QImageData.grayscale8 rows =>
      rows.all (fun row => row.all (fun v => decide (v < 256)))
  | QImageData.rgb32 rows =>
      rows.all (fun row => row.all (fun p =>
        decide (p.r < 256) && decide (p.g < 256) && decide (p.b < 256)))

/-- The 16-bit samples written by the binary branch of
`handleCameraImageArray`: row-major traversal, `quint16` cast of
`gray * 257`. -/
def imageBytesPixelData : QImageData → List Nat
  | QImageData.grayscale8 rows =>
      (rows.map (fun row => row.map (fun v => v * 257 % 65536))).flatten
  | QImageData.rgb32 rows =>
      (rows.map (fun row => row.map (fun p =>
        qGray p.r p.g p.b * 257 % 65536))).flatten

/-- The pixel integers appended to the flat `QJsonArray` by the JSON branch
of `handleCameraImageArray`: same row-major traversal, `int` arithmetic. -/
def imageJsonPixelArray : QImageData → List Int
  | QImageData.grayscale8 rows =>
      (rows.map (fun row => row.map (fun (v : Nat) => (v : Int) * 257))).flatten
  | QImageData.rgb32 rows =>
      (rows.map (fun row => row.map (fun p =>
        (qGray p.r p.g p.b : Int) * 257))).flatten

/-- Model of `image.width()`. -/
def imageWidth : QImageData → Nat
  | QImageData.grayscale8 rows => (rows.headD []).length
  | QImageData.rgb32 rows => (rows.headD []).length

/-- Model of `image.height()`. -/
def imageHeight : QImageData → Nat
  | QImageData.grayscale8 rows => rows.length
  | QImageData.rgb32 rows => rows.length

/-- Little-endian bytes of a `quint16` store. -/
def encodeU16LE (v : Nat) : List Nat := [v % 256, v / 256 % 256]

/-- Little-endian bytes of a `quint32` store. -/
def encodeU32LE (v : Nat) : List Nat :=
  [v % 256, v / 256 % 256, v / 65536 % 256, v / 16777216 % 256]

/-- Reinterpretation of a C++ `int` as `quint32`. -/
def castU32 (n : Int) : Nat := (n % 4294967296).toNat

/-- The fixed 44-byte binary header: metadata version 1, error number 0,
both transaction ids, data offset 44, element/transmission type 2 (Int16),
rank 2, two dimensions, zero third dimension. -/
def imageBytesHeader
    (clientTransactionID serverTransactionID width height : Nat) :
    List Nat :=
  ([1, 0, clientTransactionID, serverTransactionID, 44, 2, 2, 2,
    width, height, 0].map encodeU32LE).flatten

/-- The whole `application/imagebytes` body: 44-byte header followed by the
little-endian 16-bit samples. -/
def imageBytesResponse (clientTransactionID serverTransactionID : Nat)
    (img : QImageData) : List Nat :=
  imageBytesHeader clientTransactionID serverTransactionID
      (imageWidth img) (imageHeight img) ++
    ((imageBytesPixelData img).map encodeU16LE).flatten

/-- Decoder for a little-endian 16-bit sample stream (what a client does
with the bytes after the header). -/
def decodeU16LEPairs : List Nat → List Nat
  | b0 :: b1 :: rest => (b0 + 256 * b1) :: decodeU16LEPairs rest
  | _ => []

/-- Model of `OriginBackend::TelescopeStatus` with its in-class initialisers. -/
structure TelescopeStatus where
  altPosition : ℚ := 0
  azPosition : ℚ := 0
  raPosition : ℚ := 0
  decPosition : ℚ := 0
  isConnected : Bool := false
  isSlewing : Bool := false
  isTracking : Bool := false
  isParked : Bool := false
  isAligned : Bool := false
  currentOperation : String := "Idle"
  temperature : ℚ := 20
deriving Repr

/-- One JSON command written to the WebSocket.  Parameter objects are
modelled as association lists of their numeric entries; string-valued
entries (the imaging session name and uuid) are reflected in the dedicated
`currentImagingSession` state field instead. -/
structure SentCommand where
  command : String
  destination : String
  params : List (String × ℚ)
deriving Repr

/-- The mutable members of `OriginBackend`, plus the WebSocket link state
(`socketUp`) and a log of messages written to the socket. -/
structure BackendState where
  socketUp : Bool
  connectedHost : String
  connectedPort : Int
  isConnected : Bool
  statusTimerActive : Bool
  isExposing : Bool
  imageReadyFlag : Bool
  lastImage : Option QImageData
  nextSequenceId : Int
  pendingCommands : List (Int × String)
  currentImagingSession : String
  status : TelescopeStatus
  sentMessages : List SentCommand

/-- The constructor-initialised state of `OriginBackend`. -/
def initialBackendState : BackendState :=
  { socketUp := false
    connectedHost := ""
    connectedPort := 80
    isConnected := false
    statusTimerActive := false
    isExposing := false
    imageReadyFlag := false
    lastImage := none
    nextSequenceId := 2000
    pendingCommands := []
    currentImagingSession := ""
    status := {}
    sentMessages := [] }

/-- Model of `QMap::operator[]=`: update an existing key or insert a new entry. -/
def mapInsert (m : List (Int × String)) (k : Int) (v : String) :
    List (Int × String) :=
  if m.any (fun p => p.1 == k) then
    m.map (fun p => if p.1 == k then (k, v) else p)
  else m ++ [(k, v)]

/-- Model of `OriginBackend::sendCommand`: `createCommand` consumes a sequence id
unconditionally; the message is written and recorded in
`m_pendingCommands` only when the socket is connected. -/
def sendCommand (b : BackendState) (command destination : String)
    (params : List (String × ℚ)) : BackendState :=
  let seq := b.nextSequenceId
  let b1 := { b with nextSequenceId := b.nextSequenceId + 1 }
  if b1.socketUp = true then
    { b1 with
        sentMessages := b1.sentMessages ++
          [{ command := command, destination := destination,
             params := params }]
        pendingCommands := mapInsert b1.pendingCommands seq command }
  else b1

/-- Model of `OriginBackend::onWebSocketConnected`. -/
def onWebSocketConnected (b : BackendState) : BackendState :=
  let b1 := { b with
                isConnected := true
                status := { b.status with isConnected := true }
                statusTimerActive := true }
  sendCommand b1 "GetStatus" "System" []

/-- Model of `OriginBackend::connectToTelescope`; `socketConnects` says whether the
connected signal of the WebSocket arrives within the 10 s bounded wait. -/
def connectToTelescope (b : BackendState) (host : String) (port : Int)
    (socketConnects : Bool) : Bool × BackendState :=
  if b.isConnected = true then (true, b)
  else
    let b1 := { b with connectedHost := host, connectedPort := port }
    if socketConnects = true then
      let b2 := onWebSocketConnected { b1 with socketUp := true }
      (b2.isConnected, b2)
    else (b1.isConnected, b1)

/-- Model of `OriginBackend::disconnectFromTelescope`. -/
def disconnectFromTelescope (b : BackendState) : BackendState :=
  let b1 := if b.socketUp = true then { b with socketUp := false } else b
  { b1 with
      statusTimerActive := false
      isConnected := false
      status := { b1.status with isConnected := false } }

/-- Model of `OriginBackend::onWebSocketDisconnected` (transport-level loss). -/
def onWebSocketDisconnected (b : BackendState) : BackendState :=
  { b with
      socketUp := false
      isConnected := false
      status := { b.status with isConnected := false }
      statusTimerActive := false }

/-- Model of `OriginBackend::gotoPosition`. -/
def gotoPosition (b : BackendState) (ra dec : ℚ) : Bool × BackendState :=
  if b.isConnected = false then (false, b)
  else
    let raRadians := hoursToRadians ra
    let decRadians := degreesToRadians dec
    let b1 := sendCommand b "GotoRaDec" "Mount"
      [("Ra", raRadians), ("Dec", decRadians)]
    (true, { b1 with
               status := { b1.status with
                             isSlewing := true
                             currentOperation := "Slewing" } })

/-- The wait bound of the exposure timer in `singleShot`:
exposure time (converted to ms) plus a fixed 30 s margin. -/
def exposureTimeoutMilliseconds (exposureTimeMicroseconds : Int) : Int :=
  exposureTimeMicroseconds / 1000 + 30000

/-- Model of `OriginBackend::singleShot`.  `readyInTime` says whether the
`imageReady` signal (a successful download and decode) fires within
`exposureTimeoutMilliseconds`; `downloadedImage` is the decoded raster
delivered with that signal. -/
def singleShot (b : BackendState)
    (gain binning exposureTimeMicroseconds : Int) (uuid : String)
    (readyInTime : Bool) (downloadedImage : QImageData) :
    Option QImageData × BackendState :=
  if b.isConnected = false then (none, b)
  else
    let b1 := { b with currentImagingSession := uuid }
    let b2 := sendCommand b1 "SetCaptureParameters" "Camera"
      [("ISO", (gain : ℚ)), ("Binning", (binning : ℚ)),
       ("Exposure", (exposureTimeMicroseconds : ℚ) / 1000000)]
    let b3 := sendCommand b2 "RunImaging" "TaskController" []
    let b4 := { b3 with isExposing := true, imageReadyFlag := false }
    let b5 := if readyInTime = true then
        { b4 with lastImage := some downloadedImage, imageReadyFlag := true }
      else b4
    let b6 := { b5 with isExposing := false }
    if b6.imageReadyFlag = true then (b6.lastImage, b6) else (none, b6)

/-- Truncation toward zero, the semantics of a C++ `(int)` cast from
`double`. -/
def cTruncToInt (q : ℚ) : Int :=
  if 0 ≤ q then Int.floor q else -Int.floor (-q)

/-- Parsed body of a `slewtocoordinates` / `synctocoordinates` request. -/
structure SlewRequestBody where
  parseOk : Bool
  rightAscension : Option ℚ
  declination : Option ℚ

/-- Model of `AlpacaServer::handleTelescopeSlewToCoordinates`. -/
def handleTelescopeSlewToCoordinates (srv : ServerState) (b : BackendState)
    (t : ClientTransaction) (body : SlewRequestBody) :
    AlpacaResponse × ServerState × BackendState :=
  if b.isConnected = false then
    let r := createErrorResponse srv 1031 "Not connected to telescope"
    (r.1, r.2, b)
  else if body.parseOk = false then
    let r := createErrorResponse srv 1002 "Invalid parameters"
    (r.1, r.2, b)
  else
    match body.rightAscension, body.declination with
    | some ra, some dec =>
        if ra < 0 ∨ 24 ≤ ra then
          let r := createErrorResponse srv 1025 "Invalid RightAscension value"
          (r.1, r.2, b)
        else if dec < -90 ∨ 90 < dec then
          let r := createErrorResponse srv 1025 "Invalid Declination value"
          (r.1, r.2, b)
        else
          let g := gotoPosition b ra dec
          if g.1 = true then
            let r := createSuccessResponse srv (JVal.bool true) t
            (r.1, r.2, g.2)
          else
            let r := createErrorResponse srv 1 "Failed to slew to coordinates"
            (r.1, r.2, g.2)
    | _, _ =>
        let r := createErrorResponse srv 1002 "Missing coordinates"
        (r.1, r.2, b)

/-- Parsed body of a `startexposure` request. -/
structure StartExposureRequestBody where
  parseOk : Bool
  duration : Option ℚ
  gain : Option Int

/-- Model of `AlpacaServer::handleCameraStartExposure`.  Note: no connection check
and no in-flight-exposure check; the capture result is stored only when
non-null, and the reply is a success envelope in every non-parse-error
case. -/
def handleCameraStartExposure (srv : ServerState) (b : BackendState)
    (t : ClientTransaction) (body : StartExposureRequestBody)
    (uuid : String) (readyInTime : Bool) (downloadedImage : QImageData) :
    AlpacaResponse × ServerState × BackendState :=
  if body.parseOk = false then
    let r := createErrorResponse srv 1002 "Invalid parameters"
    (r.1, r.2, b)
  else
    match body.duration with
    | none =>
        let r := createErrorResponse srv 1002 "Missing Duration parameter"
        (r.1, r.2, b)
    | some duration =>
        if duration ≤ 0 then
          let r := createErrorResponse srv 1025 "Invalid exposure duration"
          (r.1, r.2, b)
        else
          let gain := body.gain.getD 50
          let shot := singleShot b gain 1 (cTruncToInt (duration * 1000000))
            uuid readyInTime downloadedImage
          let b2 := match shot.1 with
            | some img =>
                { shot.2 with lastImage := some img, imageReadyFlag := true }
            | none => shot.2
          let r := createSuccessResponse srv (JVal.bool true) t
          (r.1, r.2, b2)

/-- Parsed body of a PUT to the `connected` endpoint
(`connectedParam` is the bool-converted `Connected` value). -/
structure ConnectedRequestBody where
  methodIsPut : Bool
  parseOk : Bool
  connectedParam : Option Bool

/-- The default host the bridge connects to. -/
def defaultOriginHost : String := "192.168.1.100"

/-- The default port the bridge connects to. -/
def defaultOriginPort : Int := 80

/-- Model of `AlpacaServer::handleDeviceConnected` (`command = true` for the PUT
route, `false` for GET). -/
def handleDeviceConnected (srv : ServerState) (b : BackendState)
    (t : ClientTransaction) (command : Bool) (body : ConnectedRequestBody)
    (socketConnects : Bool) : AlpacaResponse × ServerState × BackendState :=
  if command = true then
    if body.methodIsPut = false then
      let r := createErrorResponse srv 1 "Method not allowed"
      (r.1, r.2, b)
    else if body.parseOk = false then
      let r := createErrorResponse srv 1002 "Invalid parameters"
      (r.1, r.2, b)
    else
      match body.connectedParam with
      | none =>
          let r := createErrorResponse srv 1002
            "Missing \x27Connected\x27 parameter"
          (r.1, r.2, b)
      | some connected =>
          if connected = true ∧ b.isConnected = false then
            let c := connectToTelescope b defaultOriginHost defaultOriginPort
              socketConnects
            if c.1 = false then
              let r := createErrorResponse srv 1 "Failed to connect to telescope"
              (r.1, r.2, c.2)
            else
              let r := createSuccessResponse srv (JVal.bool c.2.isConnected) t
              (r.1, r.2, c.2)
          else if connected = false ∧ b.isConnected = true then
            let b1 := disconnectFromTelescope b
            let r := createSuccessResponse srv (JVal.bool b1.isConnected) t
            (r.1, r.2, b1)
          else
            let r := createSuccessResponse srv (JVal.bool b.isConnected) t
            (r.1, r.2, b)
  else
    let r := createSuccessResponse srv (JVal.bool b.isConnected) t
    (r.1, r.2, b)

/-- Model of `AlpacaServer::handleCameraImageArray` reply: binary body or JSON
envelope. -/
inductive ImageArrayReply where
  | binary (bytes : List Nat)
  | json (resp : AlpacaResponse)

/-- Model of `AlpacaServer::handleCameraImageArray`; `acceptImageBytes` says whether
the Accept header contains `application/imagebytes`. -/
def handleCameraImageArray (srv : ServerState) (b : BackendState)
    (t : ClientTransaction) (acceptImageBytes : Bool) :
    ImageArrayReply × ServerState :=
  if b.isConnected = false then
    let r := createErrorResponse srv 1031 "Not connected to camera"
    (ImageArrayReply.json r.1, r.2)
  else if b.imageReadyFlag = false then
    let r := createErrorResponse srv 1 "No image is ready"
    (ImageArrayReply.json r.1, r.2)
  else
    match b.lastImage with
    | none =>
        let r := createErrorResponse srv 1 "Failed to get image"
        (ImageArrayReply.json r.1, r.2)
    | some img =>
        if acceptImageBytes = true then
          (ImageArrayReply.binary
             (imageBytesResponse (castU32 t.clientTransactionID)
               (castU32 srv.transactionCounter) img),
           { srv with transactionCounter := srv.transactionCounter + 1 })
        else
          let r := createSuccessResponse srv
            (JVal.arr ((imageJsonPixelArray img).map JVal.int)) t
          (ImageArrayReply.json r.1, r.2)

/-- A fresh server state (`m_transactionCounter` starts at 0). -/
def freshServerState : ServerState := { transactionCounter := 0 }

/-- A small concrete grayscale frame used for closed instances. -/
def testImage : QImageData := QImageData.grayscale8 [[10, 20], [30, 40]]

/-- A connected, idle backend. -/
def connectedIdleBackend : BackendState :=
  { initialBackendState with
      socketUp := true
      isConnected := true
      connectedHost := "192.168.1.100"
      statusTimerActive := true
      status := { initialBackendState.status with isConnected := true } }

/-- A connected backend with an exposure in flight (session "session-A"). -/
def exposingBackend : BackendState :=
  { connectedIdleBackend with
      isExposing := true
      currentImagingSession := "session-A" }

/-- PUT body `Connected=true`. -/
def putConnectedTrueBody : ConnectedRequestBody :=
  { methodIsPut := true, parseOk := true, connectedParam := some true }

/-- PUT body `Connected=false`. -/
def putConnectedFalseBody : ConnectedRequestBody :=
  { methodIsPut := true, parseOk := true, connectedParam := some false }

/-- A connected backend holding a ready captured frame. -/
def imageReadyBackend : BackendState :=
  { connectedIdleBackend with
      imageReadyFlag := true
      lastImage := some testImage }

lemma respondTransactionID_fst (s : ServerState) (o : RequestOutcome) :
    (respondTransactionID s o).1 = s.transactionCounter := by
  cases o <;> rfl

lemma respondTransactionID_counter (s : ServerState) (o : RequestOutcome) :
    (respondTransactionID s o).2.transactionCounter =
      s.transactionCounter + 1 := by
  cases o <;> rfl

lemma serverTransactionIDs_lower_bound (os : List RequestOutcome) :
    ∀ s : ServerState, ∀ x ∈ serverTransactionIDs s os,
      s.transactionCounter ≤ x := by
  induction os with
  | nil => intro s x hx; simp [serverTransactionIDs] at hx
  | cons o os ih =>
      intro s x hx
      simp only [serverTransactionIDs, List.mem_cons] at hx
      rcases hx with h | h
      · rw [h, respondTransactionID_fst]
      · have := ih (respondTransactionID s o).2 x h
        rw [respondTransactionID_counter] at this
        omega

lemma serverTransactionIDs_pairwise (os : List RequestOutcome) :
    ∀ s : ServerState,
      List.Pairwise (· < ·) (serverTransactionIDs s os) := by
  induction os with
  | nil => intro s; simp [serverTransactionIDs]
  | cons o os ih =>
      intro s
      simp only [serverTransactionIDs]
      refine List.Pairwise.cons ?_ (ih _)
      intro x hx
      have := serverTransactionIDs_lower_bound os (respondTransactionID s o).2 x hx
      rw [respondTransactionID_counter] at this
      rw [respondTransactionID_fst]
      omega

/-- C2: across any sequence of handled requests, the emitted
`ServerTransactionID` values are strictly increasing (hence never reused),
whether each response is a success, an error, or a binary image reply. -/
theorem serverTransactionID_strictly_increasing
    (s : ServerState) (os : List RequestOutcome) :
    List.Pairwise (· < ·) (serverTransactionIDs s os) ∧
      (serverTransactionIDs s os).Nodup := by
  refine ⟨serverTransactionIDs_pairwise os s, ?_⟩
  exact (serverTransactionIDs_pairwise os s).imp (fun h => ne_of_lt h)

/-- C3: every error envelope has the given (always nonzero) error number, a
non-empty message, `ClientTransactionID = 0` and a null `Value`; every
success envelope has `ErrorNumber 0`, an empty message and echoes the
client transaction id; and every error call site in the bridge passes a
nonzero number and non-empty message. -/
theorem alpaca_envelope_contract :
    (∀ (s : ServerState) (n : Int) (m : String),
      (createErrorResponse s n m).1.errorNumber = n ∧
      (createErrorResponse s n m).1.errorMessage = m ∧
      (createErrorResponse s n m).1.clientTransactionID = 0 ∧
      (createErrorResponse s n m).1.value = JVal.null) ∧
    (∀ (s : ServerState) (v : JVal) (t : ClientTransaction),
      (createSuccessResponse s v t).1.errorNumber = 0 ∧
      (createSuccessResponse s v t).1.errorMessage = "" ∧
      (createSuccessResponse s v t).1.clientTransactionID =
        t.clientTransactionID ∧
      (createSuccessResponse s v t).1.value = v) ∧
    (∀ p ∈ alpacaErrorCallSites, p.1 ≠ 0 ∧ p.2 ≠ "") ∧
    (∀ action : String,
      (1001 : Int) ≠ 0 ∧ actionNotImplementedMessage action ≠ "") := by
  refine ⟨fun s n m => ⟨rfl, rfl, rfl, rfl⟩,
          fun s v t => ⟨rfl, rfl, rfl, rfl⟩, ?_, ?_⟩
  · decide
  · intro action
    refine ⟨by decide, fun h => ?_⟩
    have hlen := congrArg String.length h
    rw [actionNotImplementedMessage, String.length_append] at hlen
    have h24 : ("Action not implemented: ").length = 24 := by decide
    have h0 : ("" : String).length = 0 := rfl
    rw [h24, h0] at hlen
    omega

/-- Closed instance of the envelope contract at one concrete call site. -/
theorem alpaca_envelope_contract_witness :
    ((1031 : Int), "Not connected to telescope") ∈ alpacaErrorCallSites ∧
      ((1031 : Int) ≠ 0 ∧ "Not connected to telescope" ≠ "") :=
  ⟨by decide,
   alpaca_envelope_contract.2.2.1 ((1031 : Int), "Not connected to telescope")
     (by decide)⟩

lemma sendCommand_isConnected (b : BackendState) (c d : String)
    (p : List (String × ℚ)) :
    (sendCommand b c d p).isConnected = b.isConnected := by
  simp only [sendCommand]
  split <;> rfl

lemma sendCommand_lastImage (b : BackendState) (c d : String)
    (p : List (String × ℚ)) :
    (sendCommand b c d p).lastImage = b.lastImage := by
  simp only [sendCommand]
  split <;> rfl

lemma gotoPosition_roundtrip_ra (ra : ℚ) :
    radiansToHours (hoursToRadians ra) = ra := by
  have hpi : piDouble ≠ 0 := by norm_num [piDouble]
  unfold radiansToHours hoursToRadians
  field_simp

lemma gotoPosition_roundtrip_dec (dec : ℚ) :
    radiansToDegrees (degreesToRadians dec) = dec := by
  have hpi : piDouble ≠ 0 := by norm_num [piDouble]
  unfold radiansToDegrees degreesToRadians
  field_simp

/-- C7: `gotoPosition` sends the RA converted by `hoursToRadians` and the
declination converted by `degreesToRadians`, and converting back with
`radiansToHours` / `radiansToDegrees` recovers the original coordinates
exactly (the conversions are exact field operations on the `M_PI`
constant, so the round trip is lossless). -/
theorem gotoPosition_unit_roundtrip (b : BackendState) (ra dec : ℚ)
    (hconn : b.isConnected = true) (hsock : b.socketUp = true)
    (h0 : 0 ≤ ra) (h24 : ra < 24) (hd1 : -90 ≤ dec) (hd2 : dec ≤ 90) :
    (gotoPosition b ra dec).2.sentMessages.getLast? =
      some { command := "GotoRaDec", destination := "Mount",
             params := [("Ra", hoursToRadians ra),
                        ("Dec", degreesToRadians dec)] } ∧
    radiansToHours (hoursToRadians ra) = ra ∧
    radiansToDegrees (degreesToRadians dec) = dec := by
  refine ⟨?_, gotoPosition_roundtrip_ra ra, gotoPosition_roundtrip_dec dec⟩
  simp [gotoPosition, sendCommand, hconn, hsock]

/-- Closed instance of the round-trip law at RA 3 h, Dec 45°. -/
theorem gotoPosition_unit_roundtrip_witness :
    (connectedIdleBackend.isConnected = true ∧
      connectedIdleBackend.socketUp = true ∧
      (0 : ℚ) ≤ 3 ∧ (3 : ℚ) < 24 ∧ (-90 : ℚ) ≤ 45 ∧ (45 : ℚ) ≤ 90) ∧
    radiansToHours (hoursToRadians 3) = 3 ∧
    radiansToDegrees (degreesToRadians 45) = 45 :=
  ⟨⟨rfl, rfl, by decide, by decide, by decide, by decide⟩,
   (gotoPosition_unit_roundtrip connectedIdleBackend 3 45 rfl rfl
      (by decide) (by decide) (by decide) (by decide)).2⟩

/-- C5: when the ready notification does not arrive within the timer bound
(`exposureTimeoutMilliseconds`), `singleShot` returns a null image, clears
`m_isExposing`, leaves the session connected, and a subsequent `singleShot`
is able to run and succeed — the exposing slot is never left occupied. -/
theorem singleShot_timeout_releases_slot
    (b : BackendState) (gain binning expo : Int) (uuid uuid2 : String)
    (img img2 : QImageData) (hconn : b.isConnected = true) :
    (singleShot b gain binning expo uuid false img).1 = none ∧
    (singleShot b gain binning expo uuid false img).2.isExposing = false ∧
    (singleShot b gain binning expo uuid false img).2.isConnected = true ∧
    (singleShot (singleShot b gain binning expo uuid false img).2
        gain binning expo uuid2 true img2).1 = some img2 := by
  refine ⟨?_, ?_, ?_, ?_⟩ <;>
    simp [singleShot, sendCommand_isConnected, hconn]

/-- Closed instance of the timeout-release law. -/
theorem singleShot_timeout_releases_slot_witness :
    connectedIdleBackend.isConnected = true ∧
    ((singleShot connectedIdleBackend 50 1 1000000 "u1" false testImage).1 =
        none ∧
      (singleShot connectedIdleBackend 50 1 1000000 "u1" false
          testImage).2.isExposing = false ∧
      (singleShot connectedIdleBackend 50 1 1000000 "u1" false
          testImage).2.isConnected = true ∧
      (singleShot (singleShot connectedIdleBackend 50 1 1000000 "u1" false
          testImage).2 50 1 1000000 "u2" true testImage).1 =
        some testImage) :=
  ⟨rfl, singleShot_timeout_releases_slot connectedIdleBackend 50 1 1000000
    "u1" "u2" testImage testImage rfl⟩

/-- C1 (violated by the code): `singleShot` has no in-flight-exposure
guard.  Called on a backend whose exposure is in flight (session
"session-A"), it is not rejected: it overwrites the imaging session with
"session-B", sends `SetCaptureParameters` and `RunImaging` again, and
returns a fresh image. -/
theorem singleShot_overwrites_inflight_session :
    exposingBackend.isExposing = true ∧
    exposingBackend.currentImagingSession = "session-A" ∧
    (singleShot exposingBackend 50 1 1000000 "session-B" true testImage).1 =
      some testImage ∧
    (singleShot exposingBackend 50 1 1000000 "session-B" true
        testImage).2.currentImagingSession = "session-B" ∧
    ((singleShot exposingBackend 50 1 1000000 "session-B" true
        testImage).2.sentMessages.map SentCommand.command) =
      ["SetCaptureParameters", "RunImaging"] :=
  ⟨rfl, rfl, rfl, rfl, rfl⟩

/-- C9 (violated by the code): neither `disconnectFromTelescope` nor
`onWebSocketDisconnected` touches `m_pendingCommands`; the entry recorded
for the initial `GetStatus` (sequence id 2000) survives both disconnect
paths. -/
theorem disconnect_leaves_pending_commands :
    (connectToTelescope initialBackendState "10.0.0.5" 80
        true).2.pendingCommands = [(2000, "GetStatus")] ∧
    (disconnectFromTelescope (connectToTelescope initialBackendState
        "10.0.0.5" 80 true).2).pendingCommands = [(2000, "GetStatus")] ∧
    (onWebSocketDisconnected (connectToTelescope initialBackendState
        "10.0.0.5" 80 true).2).pendingCommands = [(2000, "GetStatus")] ∧
    (disconnectFromTelescope (connectToTelescope initialBackendState
        "10.0.0.5" 80 true).2).isConnected = false :=
  ⟨rfl, rfl, rfl, rfl⟩

/-- C4 (violated by the code at `startexposure`): with the backend
disconnected and a valid `Duration`, `handleCameraStartExposure` does not
return the distinct not-connected error (1031) — it replies with
`ErrorNumber 0`. -/
theorem startexposure_not_connected_counterexample :
    initialBackendState.isConnected = false ∧
    (handleCameraStartExposure freshServerState initialBackendState {}
        { parseOk := true, duration := some 1, gain := none }
        "u" true testImage).1.errorNumber = 0 ∧
    (handleCameraStartExposure freshServerState initialBackendState {}
        { parseOk := true, duration := some 1, gain := none }
        "u" true testImage).1.errorNumber ≠ 1031 :=
  ⟨rfl, rfl, by decide⟩

/-- C4 as amended: connection-guarded endpoints (here
`slewtocoordinates`) return the not-connected error 1031 without invoking
the backend when disconnected; the `startexposure` endpoint performs no
such check — it invokes `singleShot` (which itself fails fast, leaving the
backend unchanged) and replies with a success envelope. -/
theorem connection_guard_amended
    (srv : ServerState) (b : BackendState) (t : ClientTransaction)
    (body : SlewRequestBody) (req : StartExposureRequestBody)
    (uuid : String) (ready : Bool) (img : QImageData) (d : ℚ)
    (hdisc : b.isConnected = false) (hparse : req.parseOk = true)
    (hdur : req.duration = some d) (hpos : 0 < d) :
    (handleTelescopeSlewToCoordinates srv b t body).1.errorNumber = 1031 ∧
    (handleTelescopeSlewToCoordinates srv b t body).1.errorMessage =
      "Not connected to telescope" ∧
    (handleTelescopeSlewToCoordinates srv b t body).2.2 = b ∧
    (handleCameraStartExposure srv b t req uuid ready img).1.errorNumber =
      0 ∧
    (handleCameraStartExposure srv b t req uuid ready img).2.2 = b := by
  have hnot : ¬ d ≤ 0 := not_le.mpr hpos
  refine ⟨?_, ?_, ?_, ?_, ?_⟩ <;>
    simp [handleTelescopeSlewToCoordinates, handleCameraStartExposure,
      createErrorResponse, createSuccessResponse, singleShot, hdisc,
      hparse, hdur, hnot]

/-- Closed instance of the amended connection-guard behaviour. -/
theorem connection_guard_amended_witness :
    (initialBackendState.isConnected = false ∧
      ({ parseOk := true, duration := some 1, gain := none } :
          StartExposureRequestBody).parseOk = true ∧
      ({ parseOk := true, duration := some 1, gain := none } :
          StartExposureRequestBody).duration = some 1 ∧ (0 : ℚ) < 1) ∧
    ((handleTelescopeSlewToCoordinates freshServerState initialBackendState
        {} { parseOk := true, rightAscension := some 3,
             declination := some 45 }).1.errorNumber = 1031 ∧
      (handleTelescopeSlewToCoordinates freshServerState initialBackendState
        {} { parseOk := true, rightAscension := some 3,
             declination := some 45 }).1.errorMessage =
        "Not connected to telescope" ∧
      (handleTelescopeSlewToCoordinates freshServerState initialBackendState
        {} { parseOk := true, rightAscension := some 3,
             declination := some 45 }).2.2 = initialBackendState ∧
      (handleCameraStartExposure freshServerState initialBackendState {}
        { parseOk := true, duration := some 1, gain := none }
        "u" true testImage).1.errorNumber = 0 ∧
      (handleCameraStartExposure freshServerState initialBackendState {}
        { parseOk := true, duration := some 1, gain := none }
        "u" true testImage).2.2 = initialBackendState) :=
  ⟨⟨rfl, rfl, rfl, by decide⟩,
   connection_guard_amended freshServerState initialBackendState {}
     { parseOk := true, rightAscension := some 3, declination := some 45 }
     { parseOk := true, duration := some 1, gain := none }
     "u" true testImage 1 rfl rfl rfl (by decide)⟩

/-- C10: for a parseable `startexposure` body with positive `Duration`,
the handler replies with a success envelope (`ErrorNumber 0`,
`Value true`) even when the capture fails — whether the backend is
disconnected (backend left unchanged) or the exposure wait times out
(`singleShot` returns a null image, the store step is skipped, and
`imageready` remains false). -/
theorem startexposure_success_envelope_on_failed_capture
    (srv : ServerState) (b : BackendState) (t : ClientTransaction)
    (req : StartExposureRequestBody) (uuid : String) (img : QImageData)
    (d : ℚ) (hparse : req.parseOk = true) (hdur : req.duration = some d)
    (hpos : 0 < d) :
    (b.isConnected = false →
      (handleCameraStartExposure srv b t req uuid true img).1.errorNumber =
        0 ∧
      (handleCameraStartExposure srv b t req uuid true img).1.value =
        JVal.bool true ∧
      (handleCameraStartExposure srv b t req uuid true img).2.2 = b) ∧
    (b.isConnected = true →
      (singleShot b (req.gain.getD 50) 1 (cTruncToInt (d * 1000000)) uuid
          false img).1 = none ∧
      (handleCameraStartExposure srv b t req uuid false img).1.errorNumber =
        0 ∧
      (handleCameraStartExposure srv b t req uuid false img).1.value =
        JVal.bool true ∧
      (handleCameraStartExposure srv b t req uuid false
          img).2.2.imageReadyFlag = false ∧
      (handleCameraStartExposure srv b t req uuid false
          img).2.2.lastImage = b.lastImage) := by
  have hnot : ¬ d ≤ 0 := not_le.mpr hpos
  constructor
  · intro h
    refine ⟨?_, ?_, ?_⟩ <;>
      simp [handleCameraStartExposure, singleShot, createSuccessResponse,
        hparse, hdur, hnot, h]
  · intro h
    refine ⟨?_, ?_, ?_, ?_, ?_⟩ <;>
      simp [handleCameraStartExposure, singleShot, createSuccessResponse,
        sendCommand_lastImage, hparse, hdur, hnot, h]

/-- Closed instance of the success-envelope-on-timeout behaviour. -/
theorem startexposure_success_envelope_witness :
    (({ parseOk := true, duration := some 2, gain := none } :
        StartExposureRequestBody).parseOk = true ∧
      ({ parseOk := true, duration := some 2, gain := none } :
        StartExposureRequestBody).duration = some 2 ∧ (0 : ℚ) < 2 ∧
      connectedIdleBackend.isConnected = true) ∧
    ((singleShot connectedIdleBackend
        (({ parseOk := true, duration := some 2, gain := none } :
          StartExposureRequestBody).gain.getD 50) 1
        (cTruncToInt (2 * 1000000)) "u" false testImage).1 = none ∧
      (handleCameraStartExposure freshServerState connectedIdleBackend {}
        { parseOk := true, duration := some 2, gain := none }
        "u" false testImage).1.errorNumber = 0 ∧
      (handleCameraStartExposure freshServerState connectedIdleBackend {}
        { parseOk := true, duration := some 2, gain := none }
        "u" false testImage).1.value = JVal.bool true ∧
      (handleCameraStartExposure freshServerState connectedIdleBackend {}
        { parseOk := true, duration := some 2, gain := none }
        "u" false testImage).2.2.imageReadyFlag = false ∧
      (handleCameraStartExposure freshServerState connectedIdleBackend {}
        { parseOk := true, duration := some 2, gain := none }
        "u" false testImage).2.2.lastImage =
        connectedIdleBackend.lastImage) :=
  ⟨⟨rfl, rfl, by decide, rfl⟩,
   (startexposure_success_envelope_on_failed_capture freshServerState
     connectedIdleBackend {}
     { parseOk := true, duration := some 2, gain := none }
     "u" testImage 2 rfl rfl (by decide)).2 rfl⟩

/-- C8: `connectToTelescope` while already connected is a success no-op;
a PUT of `Connected` equal to the current state is a success no-op in both
directions; and toggling `Connected=false` then `Connected=true` leaves
the session in the same connected state as a single connect call from a
disconnected session under the same connection outcome `o`. -/
theorem connected_endpoint_idempotent
    (b bd : BackendState) (srv srv1 srv2 : ServerState)
    (t : ClientTransaction) (host : String) (port : Int) (o oc : Bool)
    (hconn : b.isConnected = true) (hdisc : bd.isConnected = false) :
    connectToTelescope b host port oc = (true, b) ∧
    ((handleDeviceConnected srv b t true putConnectedTrueBody
        oc).1.errorNumber = 0 ∧
      (handleDeviceConnected srv b t true putConnectedTrueBody
        oc).1.value = JVal.bool true ∧
      (handleDeviceConnected srv b t true putConnectedTrueBody
        oc).2.2 = b) ∧
    ((handleDeviceConnected srv bd t true putConnectedFalseBody
        oc).1.errorNumber = 0 ∧
      (handleDeviceConnected srv bd t true putConnectedFalseBody
        oc).1.value = JVal.bool false ∧
      (handleDeviceConnected srv bd t true putConnectedFalseBody
        oc).2.2 = bd) ∧
    (handleDeviceConnected srv2
        (handleDeviceConnected srv1 b t true putConnectedFalseBody o).2.2
        t true putConnectedTrueBody o).2.2.isConnected =
      (connectToTelescope bd defaultOriginHost defaultOriginPort
        o).2.isConnected := by
  refine ⟨?_, ?_, ?_, ?_⟩
  · simp [connectToTelescope, hconn]
  · refine ⟨?_, ?_, ?_⟩ <;>
      simp [handleDeviceConnected, putConnectedTrueBody,
        createSuccessResponse, hconn]
  · refine ⟨?_, ?_, ?_⟩ <;>
      simp [handleDeviceConnected, putConnectedFalseBody,
        createSuccessResponse, hdisc]
  · cases o <;>
      simp [handleDeviceConnected, putConnectedTrueBody,
        putConnectedFalseBody, connectToTelescope, disconnectFromTelescope,
        onWebSocketConnected, sendCommand_isConnected,
        createSuccessResponse, createErrorResponse, hconn, hdisc]

/-- Closed instance of the connected-endpoint idempotence laws. -/
theorem connected_endpoint_idempotent_witness :
    (connectedIdleBackend.isConnected = true ∧
      initialBackendState.isConnected = false) ∧
    (connectToTelescope connectedIdleBackend "192.168.1.100" 80 true =
        (true, connectedIdleBackend) ∧
      ((handleDeviceConnected freshServerState connectedIdleBackend {} true
          putConnectedTrueBody true).1.errorNumber = 0 ∧
        (handleDeviceConnected freshServerState connectedIdleBackend {} true
          putConnectedTrueBody true).1.value = JVal.bool true ∧
        (handleDeviceConnected freshServerState connectedIdleBackend {} true
          putConnectedTrueBody true).2.2 = connectedIdleBackend) ∧
      ((handleDeviceConnected freshServerState initialBackendState {} true
          putConnectedFalseBody true).1.errorNumber = 0 ∧
        (handleDeviceConnected freshServerState initialBackendState {} true
          putConnectedFalseBody true).1.value = JVal.bool false ∧
        (handleDeviceConnected freshServerState initialBackendState {} true
          putConnectedFalseBody true).2.2 = initialBackendState) ∧
      (handleDeviceConnected freshServerState
          (handleDeviceConnected freshServerState connectedIdleBackend {}
            true putConnectedFalseBody true).2.2
          {} true putConnectedTrueBody true).2.2.isConnected =
        (connectToTelescope initialBackendState defaultOriginHost
          defaultOriginPort true).2.isConnected) :=
  ⟨⟨rfl, rfl⟩,
   connected_endpoint_idempotent connectedIdleBackend initialBackendState
     freshServerState freshServerState freshServerState {}
     "192.168.1.100" 80 true true rfl rfl⟩

lemma decodeU16LEPairs_cons (a b : Nat) (l : List Nat) :
    decodeU16LEPairs (a :: b :: l) = (a + 256 * b) :: decodeU16LEPairs l :=
  rfl

lemma decodeU16LEPairs_flatten_map (vs : List Nat) :
    decodeU16LEPairs ((vs.map encodeU16LE).flatten) =
      vs.map (fun v => v % 65536) := by
  induction vs with
  | nil => rfl
  | cons v rest ih =>
      simp only [List.map_cons, List.flatten_cons, encodeU16LE,
        List.cons_append, List.nil_append, decodeU16LEPairs_cons, ih]
      congr 1
      omega

lemma imageBytesHeader_length (c s w h : Nat) :
    (imageBytesHeader c s w h).length = 44 :=
  rfl

lemma imageBytesResponse_drop (c s : Nat) (img : QImageData) :
    (imageBytesResponse c s img).drop 44 =
      ((imageBytesPixelData img).map encodeU16LE).flatten := by
  unfold imageBytesResponse
  rw [← imageBytesHeader_length c s (imageWidth img) (imageHeight img),
    List.drop_left]

lemma qGray_lt_256 {r g b : Nat} (hr : r < 256) (hg : g < 256)
    (hb : b < 256) : qGray r g b < 256 := by
  unfold qGray
  omega

lemma decoded_samples_eq_json (img : QImageData) (hwf : wfImage img = true) :
    ((imageBytesPixelData img).map (fun v => v % 65536)).map
        (fun (n : Nat) => (n : Int)) =
      imageJsonPixelArray img := by
  cases img with
  | grayscale8 rows =>
      simp only [wfImage, List.all_eq_true, decide_eq_true_eq] at hwf
      simp only [imageBytesPixelData, imageJsonPixelArray, List.map_map,
        List.map_flatten]
      refine congrArg List.flatten ?_
      refine List.map_congr_left ?_
      intro row hrow
      simp only [Function.comp_apply, List.map_map]
      refine List.map_congr_left ?_
      intro v hv
      have h256 : v < 256 := hwf row hrow v hv
      simp only [Function.comp_apply]
      rw [show v * 257 % 65536 % 65536 = v * 257 from by omega]
      push_cast
      ring
  | rgb32 rows =>
      simp only [wfImage, List.all_eq_true, decide_eq_true_eq,
        Bool.and_eq_true] at hwf
      simp only [imageBytesPixelData, imageJsonPixelArray, List.map_map,
        List.map_flatten]
      refine congrArg List.flatten ?_
      refine List.map_congr_left ?_
      intro row hrow
      simp only [Function.comp_apply, List.map_map]
      refine List.map_congr_left ?_
      intro p hp
      have h256 : qGray p.r p.g p.b < 256 :=
        qGray_lt_256 (hwf row hrow p hp).1.1 (hwf row hrow p hp).1.2
          (hwf row hrow p hp).2
      simp only [Function.comp_apply]
      rw [show qGray p.r p.g p.b * 257 % 65536 % 65536 =
        qGray p.r p.g p.b * 257 from by omega]
      push_cast
      ring

/-- C6: for a connected backend with a ready, well-formed frame, the
`imagearray` endpoint returns the binary body exactly when the Accept
header carries the binary media type, the JSON envelope otherwise, and
decoding the 16-bit samples after the fixed 44-byte header yields exactly
the pixel values of the JSON array, in the same row-major order. -/
theorem imagearray_binary_json_equivalent
    (srv : ServerState) (b : BackendState) (t : ClientTransaction)
    (img : QImageData) (hconn : b.isConnected = true)
    (hready : b.imageReadyFlag = true) (himg : b.lastImage = some img)
    (hwf : wfImage img = true) :
    (handleCameraImageArray srv b t true).1 =
      ImageArrayReply.binary
        (imageBytesResponse (castU32 t.clientTransactionID)
          (castU32 srv.transactionCounter) img) ∧
    (handleCameraImageArray srv b t false).1 =
      ImageArrayReply.json
        (createSuccessResponse srv
          (JVal.arr ((imageJsonPixelArray img).map JVal.int)) t).1 ∧
    (imageBytesHeader (castU32 t.clientTransactionID)
        (castU32 srv.transactionCounter) (imageWidth img)
        (imageHeight img)).length = 44 ∧
    (decodeU16LEPairs ((imageBytesResponse (castU32 t.clientTransactionID)
          (castU32 srv.transactionCounter) img).drop 44)).map
        (fun (n : Nat) => (n : Int)) =
      imageJsonPixelArray img := by
  refine ⟨?_, ?_, imageBytesHeader_length _ _ _ _, ?_⟩
  · simp [handleCameraImageArray, hconn, hready, himg]
  · simp [handleCameraImageArray, hconn, hready, himg]
  · rw [imageBytesResponse_drop, decodeU16LEPairs_flatten_map]
    exact decoded_samples_eq_json img hwf

/-- Closed instance of the dual-encoding equivalence on a 2×2 frame. -/
theorem imagearray_binary_json_equivalent_witness :
    (imageReadyBackend.isConnected = true ∧
      imageReadyBackend.imageReadyFlag = true ∧
      imageReadyBackend.lastImage = some testImage ∧
      wfImage testImage = true) ∧
    ((handleCameraImageArray freshServerState imageReadyBackend {} true).1 =
        ImageArrayReply.binary
          (imageBytesResponse (castU32 (({} : ClientTransaction)).clientTransactionID)
            (castU32 freshServerState.transactionCounter) testImage) ∧
      (handleCameraImageArray freshServerState imageReadyBackend {}
          false).1 =
        ImageArrayReply.json
          (createSuccessResponse freshServerState
            (JVal.arr ((imageJsonPixelArray testImage).map JVal.int))
            ({} : ClientTransaction)).1 ∧
      (imageBytesHeader (castU32 (({} : ClientTransaction)).clientTransactionID)
          (castU32 freshServerState.transactionCounter)
          (imageWidth testImage) (imageHeight testImage)).length = 44 ∧
      (decodeU16LEPairs ((imageBytesResponse
            (castU32 (({} : ClientTransaction)).clientTransactionID)
            (castU32 freshServerState.transactionCounter)
            testImage).drop 44)).map (fun (n : Nat) => (n : Int)) =
        imageJsonPixelArray testImage) :=
  ⟨⟨rfl, rfl, rfl, by decide⟩,
   imagearray_binary_json_equivalent freshServerState imageReadyBackend {}
     testImage rfl rfl rfl (by decide)⟩

end OriginMonitor
